import Mathlib

/-!
# Verification of the `orders` module

A shallow embedding of `src/orders/models.py`: the `Order` rows, the manager
method `get_or_new`, the entity methods `update_total`, `check_done` and
`mark_paid`, and the three signal receivers, modelled as pure functions over
the list of stored `Order` rows.

Modelling conventions:
* Monetary amounts are integer cents (the stored columns are `Decimal` with
  two decimal places).  The source computes `update_total` via
  `math.fsum([self.cart.total, self.shipping_total])` over binary doubles and
  stores the two-decimal formatting `format(new_total, ...)`.  That binary
  path is modelled exactly, with doubles as dyadic mantissa/exponent pairs:
  `toDouble` is the round-half-even nearest double of a cent amount over 100
  (how CPython converts a `Decimal` to float), `fsumDouble` the correctly
  rounded exact sum of two doubles (the guarantee of `math.fsum`), and
  `format2fD` the exact value of the resulting double rounded half-even to
  two decimals (how CPython formats).  Overflow cannot occur: the columns
  are `DecimalField(max_digits=100)`, far below the double range, and no
  value below 0.01 arises, so finite doubles suffice.
* Foreign keys are ids (`Nat`); nullable foreign keys are `Option Nat`, and
  Python truthiness of a nullable reference is `Option.isSome`.
* Django's `exclude(billing_profile=...)` on a nullable column is the true
  complement of the corresponding `filter`, so it is modelled as `≠` on
  `Option Nat`.
* A `save()` runs the `pre_save` receiver, writes the row (UPDATE when the
  primary key exists, INSERT otherwise) and runs the `post_save` receiver
  with the matching `created` flag.  Timestamps are omitted: no claim and no
  modelled branch reads them (the queryset ordering only matters to
  `first()` on querysets already known to have exactly one element).
-/

namespace Kart

/-- A shopping cart as the `orders` app sees it (the `carts` app itself is an
external collaborator): primary key, monetary total in cents, and the
digital/physical flag `is_digital`. -/
structure Cart where
  id : Nat
  total : Int
  is_digital : Bool
deriving Repr, DecidableEq

/-- One stored `Order` row.  Fields follow the Django model: `order_id` is the
human-shareable identifier (`CharField`, blank-by-default, so `""` when
unset), `billing_profile` / `shipping_address` / `billing_address` are
nullable foreign keys, `cart` is the required cart foreign key, `status` is
the status string (initially `"created"`), `shipping_total` and `total` are
cents (defaults 5000 and 0), `active` defaults to `true`. -/
structure Order where
  pk : Nat
  order_id : String
  billing_profile : Option Nat
  shipping_address : Option Nat
  billing_address : Option Nat
  cart : Nat
  status : String
  shipping_total : Int
  total : Int
  active : Bool
deriving Repr, DecidableEq

/-- The first suffix `k ≤ used.length` whose candidate `"order-k"` is not
among the identifiers already in use (one such `k` exists by pigeonhole; the
default is never reached but keeps the definition total). -/
def freshSuffix (used : List String) : Nat :=
  (((List.range (used.length + 1)).filter
      (fun k => !(used.contains ("order-" ++ toString k)))).headD (used.length + 1))

/-- Modelled from the spec: `unique_order_id_generator` lives in `kart.utils`,
which is not among the repository's files; the spec only requires an
identifier that is unique across all orders and human-shareable.  Modelled as
the first unused candidate of the form `"order-k"`. -/
def unique_order_id_generator (db : List Order) : String :=
  "order-" ++ toString (freshSuffix (db.map (fun o => o.order_id)))

/-- The queryset update inside `order_id_pre_save_receiver`:
`Order.objects.filter(cart=instance.cart).exclude(billing_profile=instance.billing_profile).update(active=False)` —
every stored order on the instance's cart whose billing profile differs from
the instance's is marked inactive. -/
def deactivateSiblings (db : List Order) (inst : Order) : List Order :=
  db.map (fun r =>
    if r.cart = inst.cart ∧ r.billing_profile ≠ inst.billing_profile then
      { r with active := false }
    else r)

/-- Receiver `order_id_pre_save_receiver`: if the instance has no `order_id` yet,
generate one; then deactivate the sibling orders on the same cart.  Returns
the database after the queryset update and the (possibly modified) instance
about to be written. -/
def order_id_pre_save_receiver (db : List Order) (inst : Order) : List Order × Order :=
  let inst' :=
    if inst.order_id = "" then { inst with order_id := unique_order_id_generator db }
    else inst
  (deactivateSiblings db inst', inst')

/-- Writing the instance's row: UPDATE when a row with its primary key exists,
INSERT otherwise. -/
def saveRow (db : List Order) (inst : Order) : List Order :=
  if db.any (fun r => decide (r.pk = inst.pk)) then
    db.map (fun r => if r.pk = inst.pk then inst else r)
  else db ++ [inst]

/-- Saving (`order.save()`) an already-persisted order: the `pre_save` receiver runs,
the row is written, and the `post_save` receiver does nothing because
`created` is false. -/
def Order.save (db : List Order) (inst : Order) : List Order × Order :=
  let p := order_id_pre_save_receiver db inst
  (saveRow p.1 p.2, p.2)

/-- Fuel-bounded normalization of a positive rational `p / q` into the
binade `[2^52, 2^53)`: returns `(p1, q1, e)` with `p1 / q1 = (p / q) / 2^e`
and `p1 / q1` in that interval.  Fuel 600 covers every magnitude between
`2^-60` and `2^540`, far beyond the `DecimalField(max_digits=100)` range. -/
def scale53 : Nat → Nat → Nat → Int → Nat × Nat × Int
  | 0, p, q, e => (p, q, e)
  | fuel + 1, p, q, e =>
      if p < 4503599627370496 * q then scale53 fuel (2 * p) q (e - 1)
      else if 9007199254740992 * q ≤ p then scale53 fuel p (2 * q) (e + 1)
      else (p, q, e)

/-- The integer nearest to the nonnegative rational `p / q`, ties to even
(the IEEE-754 default rounding, and the rounding of CPython float
formatting). -/
def roundHalfEvenPosN (p q : Nat) : Nat :=
  let f := p / q
  let r := p % q
  if 2 * r < q then f
  else if q < 2 * r then f + 1
  else if f % 2 = 0 then f else f + 1

/-- The binary double nearest to `n / 100` (round half even), as a dyadic
pair `(m, e)` of value `m * 2^e`: how CPython turns the cent-valued
`Decimal` column into a float for `math.fsum`. -/
def toDouble (n : Int) : Int × Int :=
  if n = 0 then (0, 0)
  else
    let t := scale53 600 n.natAbs 100 0
    let m := roundHalfEvenPosN t.1 t.2.1
    ((if n < 0 then -(m : Int) else (m : Int)), t.2.2)

/-- The double nearest to the dyadic value `T * 2^e` (round half even). -/
def roundDouble (T : Int) (e : Int) : Int × Int :=
  if T = 0 then (0, 0)
  else
    let p := if 0 ≤ e then T.natAbs * 2 ^ e.toNat else T.natAbs
    let q := if 0 ≤ e then 1 else 2 ^ (-e).toNat
    let t := scale53 600 p q 0
    let m := roundHalfEvenPosN t.1 t.2.1
    ((if T < 0 then -(m : Int) else (m : Int)), t.2.2)

/-- Python `math.fsum` on two doubles: the correctly rounded double of their
exact sum (the documented guarantee of `fsum`).  The exact sum of two
dyadics is formed at the common exponent and rounded once. -/
def fsumDouble (d1 d2 : Int × Int) : Int × Int :=
  let e := min d1.2 d2.2
  let T := d1.1 * 2 ^ (d1.2 - e).toNat + d2.1 * 2 ^ (d2.2 - e).toNat
  roundDouble T e

/-- Two-decimal formatting of a double `(m, e)` as stored cents: CPython
format with the .2f specifier correctly rounds the exact binary value
`m * 2^e`, half to even, at the second decimal. -/
def format2fD (d : Int × Int) : Int :=
  let S := 100 * d.1
  if 0 ≤ d.2 then S * 2 ^ d.2.toNat
  else
    let q := 2 ^ (-d.2).toNat
    let m := roundHalfEvenPosN S.natAbs q
    if S < 0 then -(m : Int) else (m : Int)

/-- The cents that `format(math.fsum([a, b]), ...)` with the .2f specifier
stores when `a` and `b` are the cent-valued Decimals `n1 / 100` and
`n2 / 100`: the whole binary-double path of the source, computed exactly.
Checked against CPython on a battery of inputs, including the values where
it departs from exact decimal addition. -/
def newTotalCents (n1 n2 : Int) : Int :=
  format2fD (fsumDouble (toDouble n1) (toDouble n2))

/-- Method `Order.update_total`: the source computes
`new_total = math.fsum([self.cart.total, self.shipping_total])` over binary
doubles, stores the two-decimal formatting `format(new_total, ...)` into
`self.total` and saves; `c` is the related cart `self.cart`.  The stored
cents are `newTotalCents c.total inst.shipping_total`, the exact model of
that binary path (see the module docstring); it coincides with exact cent
addition on everyday amounts but not on all schema-valid ones. -/
def Order.update_total (db : List Order) (inst : Order) (c : Cart) : List Order × Order :=
  Order.save db { inst with total := newTotalCents c.total inst.shipping_total }

/-- Method `Order.check_done`, transcribed branch for branch: a shipping address is
required unless the cart is digital, and the order is done when the billing
profile is set, shipping is done, the billing address is set and the total is
positive. -/
def Order.check_done (inst : Order) (c : Cart) : Bool :=
  let shipping_address_required := !c.is_digital
  let shipping_done :=
    if shipping_address_required then
      if inst.shipping_address.isSome then true else false
    else true
  if inst.billing_profile.isSome && shipping_done && inst.billing_address.isSome
      && decide (0 < inst.total) then
    true
  else false

/-- Method `Order.mark_paid`: when the status is not already `"paid"` and
`check_done` passes, set the status to `"paid"` and save; the Python method
returns `self.status`, which is the status of the resulting instance. -/
def Order.mark_paid (db : List Order) (inst : Order) (c : Cart) : List Order × Order :=
  if inst.status ≠ "paid" then
    if Order.check_done inst c then
      Order.save db { inst with status := "paid" }
    else (db, inst)
  else (db, inst)

/-- Receiver `order_post_save_receiver`: only when the order was just created, call
`instance.update_total()` (whose own save re-enters the receivers with
`created = False`, so there is no recursion). -/
def order_post_save_receiver (db : List Order) (inst : Order) (c : Cart)
    (created : Bool) : List Order × Order :=
  match created with
  | true => Order.update_total db inst c
  | false => (db, inst)

/-- Creation (`Order.objects.create(...)`): the `pre_save` receiver, an INSERT of the
fresh row, then the `post_save` receiver with `created = True`. -/
def Order.create (db : List Order) (inst : Order) (c : Cart) : List Order × Order :=
  let p := order_id_pre_save_receiver db inst
  order_post_save_receiver (p.1 ++ [p.2]) p.2 c true

/-- A primary key strictly larger than every stored one, used when
`objects.create` inserts a fresh row. -/
def freshPk (db : List Order) : Nat :=
  (db.map (fun o => o.pk)).foldr max 0 + 1

/-- Manager method `OrderManager.get_or_new(billing_profile, cart_obj)`: filter the active,
`status=created` orders of exactly this billing profile and cart; when the
count is one return the single match with `created = False`, otherwise create
a fresh order bound to the billing profile and cart (field defaults:
`status = "created"`, `shipping_total = 5000` cents, `total = 0`,
`active = true`).  Returns (database, order, created flag). -/
def get_or_new (db : List Order) (bp : Option Nat) (c : Cart) :
    List Order × Order × Bool :=
  let qs := db.filter (fun o =>
    decide (o.billing_profile = bp ∧ o.cart = c.id ∧ o.active = true ∧ o.status = "created"))
  match qs with
  | [o] => (db, o, false)
  | _ =>
      let p := Order.create db
        { pk := freshPk db, order_id := "", billing_profile := bp,
          shipping_address := none, billing_address := none, cart := c.id,
          status := "created", shipping_total := 5000, total := 0, active := true } c
      (p.1, p.2, true)

/-- Receiver `cart_total_post_save_receiver`: nothing on cart creation; on a cart
update, when exactly one order is associated with the cart, recompute that
order's total. -/
def cart_total_post_save_receiver (db : List Order) (c : Cart) (created : Bool) :
    List Order :=
  match created with
  | true => db
  | false =>
      match db.filter (fun o => decide (o.cart = c.id)) with
      | [o] => (Order.update_total db o c).1
      | _ => db

/-- The stored row with the given primary key, as a SELECT by primary key
would return it. -/
def findRow (db : List Order) (pk : Nat) : Option Order :=
  db.find? (fun r => decide (r.pk = pk))

/-- Python two-decimal formatting (format with the .2f specifier) applied to an exact nonnegative amount of cents. -/
def centsToString (n : Int) : String :=
  let m := n.toNat
  toString (m / 100) ++ "." ++
    (if m % 100 < 10 then "0" ++ toString (m % 100) else toString (m % 100))

/-! ## Basic lemmas about the pre-save receiver and row writes -/

lemma preSave_snd_eq (db : List Order) (o : Order) :
    (order_id_pre_save_receiver db o).2 =
      if o.order_id = "" then { o with order_id := unique_order_id_generator db }
      else o := rfl

lemma preSave_fst_eq (db : List Order) (o : Order) :
    (order_id_pre_save_receiver db o).1 =
      deactivateSiblings db (order_id_pre_save_receiver db o).2 := rfl

@[simp] lemma preSave_pk (db : List Order) (o : Order) :
    ((order_id_pre_save_receiver db o).2).pk = o.pk := by
  rw [preSave_snd_eq]; split <;> rfl

@[simp] lemma preSave_cart (db : List Order) (o : Order) :
    ((order_id_pre_save_receiver db o).2).cart = o.cart := by
  rw [preSave_snd_eq]; split <;> rfl

@[simp] lemma preSave_billing_profile (db : List Order) (o : Order) :
    ((order_id_pre_save_receiver db o).2).billing_profile = o.billing_profile := by
  rw [preSave_snd_eq]; split <;> rfl

@[simp] lemma preSave_status (db : List Order) (o : Order) :
    ((order_id_pre_save_receiver db o).2).status = o.status := by
  rw [preSave_snd_eq]; split <;> rfl

@[simp] lemma preSave_total (db : List Order) (o : Order) :
    ((order_id_pre_save_receiver db o).2).total = o.total := by
  rw [preSave_snd_eq]; split <;> rfl

@[simp] lemma preSave_active (db : List Order) (o : Order) :
    ((order_id_pre_save_receiver db o).2).active = o.active := by
  rw [preSave_snd_eq]; split <;> rfl

lemma preSave_order_id (db : List Order) (o : Order) :
    ((order_id_pre_save_receiver db o).2).order_id =
      if o.order_id = "" then unique_order_id_generator db else o.order_id := by
  rw [preSave_snd_eq]; split <;> rfl

lemma generator_ne_empty (db : List Order) : unique_order_id_generator db ≠ "" := by
  unfold unique_order_id_generator
  intro h
  have h2 := congrArg String.length h
  rw [String.length_append] at h2
  have h6 : ("order-" : String).length = 6 := rfl
  have h0 : ("" : String).length = 0 := rfl
  omega

lemma find?_replace (db : List Order) (i : Order)
    (h : db.any (fun r => decide (r.pk = i.pk)) = true) :
    (db.map (fun r => if r.pk = i.pk then i else r)).find?
        (fun r => decide (r.pk = i.pk)) = some i := by
  induction db with
  | nil => simp at h
  | cons a tl ih =>
      by_cases ha : a.pk = i.pk
      · rw [List.map_cons, if_pos ha, List.find?_cons_of_pos _ (by simp)]
      · have h' : tl.any (fun r => decide (r.pk = i.pk)) = true := by
          simpa [ha] using h
        rw [List.map_cons, if_neg ha, List.find?_cons_of_neg _ (by simp [ha])]
        exact ih h'

lemma findRow_saveRow (db : List Order) (i : Order) :
    findRow (saveRow db i) i.pk = some i := by
  unfold findRow saveRow
  by_cases h : db.any (fun r => decide (r.pk = i.pk))
  · rw [if_pos h]; exact find?_replace db i h
  · rw [if_neg h]
    have hnone : db.find? (fun r => decide (r.pk = i.pk)) = none := by
      rw [List.find?_eq_none]
      intro x hx hpx
      exact h (List.any_eq_true.mpr ⟨x, hx, hpx⟩)
    rw [List.find?_append, hnone]
    simp [List.find?]

lemma mem_saveRow {db : List Order} {i r : Order} (h : r ∈ saveRow db i) :
    r = i ∨ r ∈ db := by
  unfold saveRow at h
  split at h
  · rcases List.mem_map.mp h with ⟨r0, hr0, heq⟩
    by_cases hc : r0.pk = i.pk
    · rw [if_pos hc] at heq; left; exact heq.symm
    · rw [if_neg hc] at heq; right; exact heq ▸ hr0
  · rcases List.mem_append.mp h with h1 | h2
    · right; exact h1
    · left; simpa using h2

lemma mem_saveRow_of {db : List Order} {i r : Order} (h : r ∈ db)
    (hpk : r.pk ≠ i.pk) : r ∈ saveRow db i := by
  unfold saveRow
  split
  · exact List.mem_map.mpr ⟨r, h, by rw [if_neg hpk]⟩
  · exact List.mem_append_left _ h

lemma deactivate_mem {db : List Order} {inst r : Order}
    (h : r ∈ deactivateSiblings db inst) :
    (r.cart = inst.cart → r.billing_profile ≠ inst.billing_profile → r.active = false)
    ∧ ∃ r0, r0 ∈ db ∧ r.pk = r0.pk ∧ r.order_id = r0.order_id := by
  unfold deactivateSiblings at h
  rcases List.mem_map.mp h with ⟨r0, hr0, heq⟩
  by_cases hc : r0.cart = inst.cart ∧ r0.billing_profile ≠ inst.billing_profile
  · rw [if_pos hc] at heq
    constructor
    · intro h1 h2
      rw [← heq]
    · exact ⟨r0, hr0, by rw [← heq], by rw [← heq]⟩
  · rw [if_neg hc] at heq
    constructor
    · intro h1 h2
      rw [← heq] at h1 h2
      exact absurd ⟨h1, h2⟩ hc
    · exact ⟨r0, hr0, by rw [← heq], by rw [← heq]⟩

lemma deactivate_mem_of {db : List Order} {inst r : Order} (h : r ∈ db)
    (hne : r.cart ≠ inst.cart) : r ∈ deactivateSiblings db inst := by
  unfold deactivateSiblings
  exact List.mem_map.mpr ⟨r, h, by rw [if_neg (fun hc => hne hc.1)]⟩

/-! ## Lemmas about `save`, `update_total` and `create` -/

lemma save_def (db : List Order) (o : Order) :
    Order.save db o =
      (saveRow (order_id_pre_save_receiver db o).1 (order_id_pre_save_receiver db o).2,
        (order_id_pre_save_receiver db o).2) := rfl

lemma save_snd (db : List Order) (o : Order) :
    (Order.save db o).2 = (order_id_pre_save_receiver db o).2 := rfl

lemma save_order_id (db : List Order) (o : Order) :
    (Order.save db o).2.order_id =
      if o.order_id = "" then unique_order_id_generator db else o.order_id := by
  rw [save_snd]; exact preSave_order_id db o

lemma save_order_id_ne (db : List Order) (o : Order) (h : o.order_id ≠ "") :
    (Order.save db o).2.order_id = o.order_id := by
  rw [save_order_id, if_neg h]

lemma findRow_save (db : List Order) (o : Order) :
    findRow (Order.save db o).1 o.pk = some (Order.save db o).2 := by
  rw [save_def]
  have h := findRow_saveRow (order_id_pre_save_receiver db o).1
    (order_id_pre_save_receiver db o).2
  rwa [preSave_pk] at h

lemma save_sibling_inactive {db : List Order} {o r : Order}
    (h : r ∈ (Order.save db o).1) (hc : r.cart = o.cart)
    (hb : r.billing_profile ≠ o.billing_profile) : r.active = false := by
  rw [save_def] at h
  rcases mem_saveRow h with h1 | h2
  · rw [h1, preSave_billing_profile] at hb
    exact absurd rfl hb
  · rw [preSave_fst_eq] at h2
    apply (deactivate_mem h2).1
    · rw [preSave_cart]; exact hc
    · rw [preSave_billing_profile]; exact hb

lemma update_total_def (db : List Order) (o : Order) (c : Cart) :
    Order.update_total db o c =
      Order.save db { o with total := newTotalCents c.total o.shipping_total } := rfl

lemma update_total_total (db : List Order) (o : Order) (c : Cart) :
    (Order.update_total db o c).2.total = newTotalCents c.total o.shipping_total := by
  rw [update_total_def, save_snd, preSave_total]

lemma findRow_update_total (db : List Order) (o : Order) (c : Cart) :
    findRow (Order.update_total db o c).1 o.pk = some (Order.update_total db o c).2 := by
  rw [update_total_def]
  exact findRow_save db { o with total := newTotalCents c.total o.shipping_total }

lemma create_def (db : List Order) (o : Order) (c : Cart) :
    Order.create db o c =
      Order.update_total
        ((order_id_pre_save_receiver db o).1 ++ [(order_id_pre_save_receiver db o).2])
        (order_id_pre_save_receiver db o).2 c := rfl

lemma create_order_id_ne (db : List Order) (o : Order) (c : Cart) :
    (Order.create db o c).2.order_id ≠ "" := by
  have hi : ((order_id_pre_save_receiver db o).2).order_id ≠ "" := by
    rw [preSave_order_id]
    split
    · exact generator_ne_empty db
    · assumption
  rw [create_def, update_total_def]
  have h2 := save_order_id_ne
    ((order_id_pre_save_receiver db o).1 ++ [(order_id_pre_save_receiver db o).2])
    { (order_id_pre_save_receiver db o).2 with
        total := newTotalCents c.total
          ((order_id_pre_save_receiver db o).2).shipping_total } hi
  rw [h2]
  exact hi

lemma create_pk (db : List Order) (o : Order) (c : Cart) :
    (Order.create db o c).2.pk = o.pk := by
  rw [create_def, update_total_def, save_snd]
  rw [preSave_pk]
  exact preSave_pk db o

lemma create_billing_profile (db : List Order) (o : Order) (c : Cart) :
    (Order.create db o c).2.billing_profile = o.billing_profile := by
  rw [create_def, update_total_def, save_snd]
  rw [preSave_billing_profile]
  exact preSave_billing_profile db o

lemma create_cart (db : List Order) (o : Order) (c : Cart) :
    (Order.create db o c).2.cart = o.cart := by
  rw [create_def, update_total_def, save_snd]
  rw [preSave_cart]
  exact preSave_cart db o

lemma findRow_create (db : List Order) (o : Order) (c : Cart) :
    findRow (Order.create db o c).1 o.pk = some (Order.create db o c).2 := by
  rw [create_def]
  have h := findRow_update_total
    ((order_id_pre_save_receiver db o).1 ++ [(order_id_pre_save_receiver db o).2])
    (order_id_pre_save_receiver db o).2 c
  rwa [preSave_pk] at h

lemma le_foldr_max (x : Nat) (l : List Nat) (h : x ∈ l) : x ≤ l.foldr max 0 := by
  induction l with
  | nil => cases h
  | cons a tl ih =>
      rcases List.mem_cons.mp h with h1 | h2
      · subst h1
        exact Nat.le_max_left _ _
      · exact le_trans (ih h2) (Nat.le_max_right a (tl.foldr max 0))

lemma freshPk_not_mem (db : List Order) : ∀ r ∈ db, r.pk ≠ freshPk db := by
  intro r hr
  have h := le_foldr_max r.pk (db.map (fun o => o.pk))
    (List.mem_map.mpr ⟨r, hr, rfl⟩)
  unfold freshPk
  omega

/-! ## The claims -/

/-- C2: `is_fulfillable()` (`check_done`) is true iff the billing profile is
set, the total is positive, the billing address is set, and the cart is
purely digital or the shipping address is set; it is false whenever the
billing address is unset, and on a digital cart it does not depend on the
shipping address. -/
theorem check_done_spec (o : Order) (c : Cart) (a : Nat) :
    (Order.check_done o c
        = (o.billing_profile.isSome && decide (0 < o.total) && o.billing_address.isSome
            && (c.is_digital || o.shipping_address.isSome)))
    ∧ Order.check_done { o with billing_address := none } c = false
    ∧ Order.check_done { o with shipping_address := none } { c with is_digital := true }
        = Order.check_done { o with shipping_address := some a }
            { c with is_digital := true } := by
  unfold Order.check_done
  rcases o with ⟨pk, oid, bp, sa, ba, ct, st, shp, tot, act⟩
  rcases c with ⟨cid, ctot, dig⟩
  cases dig <;> cases bp <;> cases sa <;> cases ba <;>
    by_cases h : (0 : Int) < tot <;> simp [h]

/-- C3: `mark_paid` is a no-op when the status is already `"paid"`;
otherwise, when `check_done` passes, it sets the status to `"paid"` and
persists the row, and when `check_done` fails it changes nothing; the value
returned is the resulting instance's status. -/
theorem mark_paid_spec (db : List Order) (o : Order) (c : Cart) :
    (o.status = "paid" → Order.mark_paid db o c = (db, o))
    ∧ (o.status ≠ "paid" → Order.check_done o c = true →
        ((Order.mark_paid db o c).2.status = "paid"
          ∧ findRow (Order.mark_paid db o c).1 o.pk = some (Order.mark_paid db o c).2))
    ∧ (o.status ≠ "paid" → Order.check_done o c = false →
        Order.mark_paid db o c = (db, o)) := by
  refine ⟨?_, ?_, ?_⟩
  · intro h
    unfold Order.mark_paid
    rw [if_neg (by simp [h])]
  · intro h1 h2
    have e : Order.mark_paid db o c = Order.save db { o with status := "paid" } := by
      unfold Order.mark_paid
      rw [if_pos h1, if_pos h2]
    constructor
    · rw [e, save_snd, preSave_status]
    · rw [e]
      exact findRow_save db { o with status := "paid" }
  · intro h1 h2
    unfold Order.mark_paid
    rw [if_pos h1, if_neg (by simp [h2])]

/-- The order of the spec's two `mark_paid` scenarios: billing profile and
billing address set, shipping address unset, total 150.00. -/
def ex3order : Order :=
  { pk := 1, order_id := "A", billing_profile := some 1, shipping_address := none,
    billing_address := some 2, cart := 5, status := "created",
    shipping_total := 5000, total := 15000, active := true }

/-- The digital cart of the first `mark_paid` scenario. -/
def ex3digital : Cart := { id := 5, total := 10000, is_digital := true }

/-- The physical cart of the second `mark_paid` scenario. -/
def ex3physical : Cart := { id := 5, total := 10000, is_digital := false }

/-- Witness for C3, the spec's two scenarios: with a digital cart the order
becomes `"paid"`; with a physical cart and no shipping address it stays
`"created"`. -/
theorem mark_paid_scenarios :
    (Order.mark_paid [] ex3order ex3digital).2.status = "paid"
    ∧ (Order.mark_paid [] ex3order ex3physical).2.status = "created" := by
  constructor
  · exact ((mark_paid_spec [] ex3order ex3digital).2.1 (by decide) (by decide)).1
  · have h := (mark_paid_spec [] ex3order ex3physical).2.2 (by decide) (by decide)
    rw [h]
    rfl

/-- C4: `mark_paid` is idempotent — running it a second time on the state the
first run produced changes nothing (in particular the status reached by a
successful transition stays), and an order whose status is `"paid"` is never
regressed. -/
theorem mark_paid_idempotent (db : List Order) (o : Order) (c : Cart) :
    Order.mark_paid (Order.mark_paid db o c).1 (Order.mark_paid db o c).2 c
        = Order.mark_paid db o c
    ∧ (Order.mark_paid db { o with status := "paid" } c).2.status = "paid" := by
  constructor
  · by_cases h1 : o.status = "paid"
    · have e : Order.mark_paid db o c = (db, o) := by
        unfold Order.mark_paid
        rw [if_neg (by simp [h1])]
      rw [e]
      exact e
    · by_cases h2 : Order.check_done o c
      · have e : Order.mark_paid db o c = Order.save db { o with status := "paid" } := by
          unfold Order.mark_paid
          rw [if_pos h1, if_pos h2]
        rw [e]
        have hs : ((Order.save db { o with status := "paid" }).2).status = "paid" := by
          rw [save_snd, preSave_status]
        unfold Order.mark_paid
        rw [if_neg (by simp [hs])]
      · have e : Order.mark_paid db o c = (db, o) := by
          unfold Order.mark_paid
          rw [if_pos h1, if_neg (by simpa using h2)]
        rw [e]
        exact e
  · unfold Order.mark_paid
    rw [if_neg (by simp)]

/-- The fresh order of the order-creation scenario: the defaults
`shipping_total = 5000` cents and `total = 0`, no identifier yet. -/
def ex7order : Order :=
  { pk := 1, order_id := "", billing_profile := some 1, shipping_address := none,
    billing_address := none, cart := 3, status := "created",
    shipping_total := 5000, total := 0, active := true }

/-- The cart of the order-creation scenario, total 100.00. -/
def ex7cart : Cart := { id := 3, total := 10000, is_digital := false }

/-- C7: right after an order is saved for the first time, the post-save
receiver recomputes its total from the cart state at creation time — the
stored cents are the binary-double recomputation `newTotalCents` from the
cart total and the shipping total, whatever total the instance carried
before — and persists the row; for a cart with total 100.00 and the default
shipping total 50.00 the new total is 15000 cents, that is "150.00". -/
theorem order_created_receiver_spec (db : List Order) (o : Order) (c : Cart) (t : Int) :
    ((order_post_save_receiver db o c true).2.total
        = newTotalCents c.total o.shipping_total)
    ∧ order_post_save_receiver db { o with total := t } c true
        = order_post_save_receiver db o c true
    ∧ findRow (order_post_save_receiver db o c true).1 o.pk
        = some (order_post_save_receiver db o c true).2
    ∧ (order_post_save_receiver [] ex7order ex7cart true).2.total = 15000
    ∧ centsToString (order_post_save_receiver [] ex7order ex7cart true).2.total
        = "150.00" := by
  refine ⟨?_, ?_, ?_, ?_, ?_⟩
  · exact update_total_total db o c
  · rfl
  · exact findRow_update_total db o c
  · decide
  · decide

/-- A schema-valid cart total on which the binary-double path of
`update_total` departs from exact decimal arithmetic: 90071992547409.93,
that is 9007199254740993 cents. -/
def ex1cart : Cart := { id := 2, total := 9007199254740993, is_digital := false }

/-- An order on `ex1cart` with the default shipping total 50.00. -/
def ex1order : Order :=
  { pk := 1, order_id := "C", billing_profile := some 1, shipping_address := none,
    billing_address := none, cart := 2, status := "created",
    shipping_total := 5000, total := 0, active := true }

/-- Evaluation of `update_total` at the failing input of the exact-decimal
claim: on cart total 90071992547409.93 and shipping total 50.00 the source
stores 90071992547459.94 (9007199254745994 cents), one cent away from the
exact decimal sum 90071992547459.93 that the claim requires. -/
theorem update_total_float_divergence :
    (Order.update_total [] ex1order ex1cart).2.total = 9007199254745994
    ∧ (Order.update_total [] ex1order ex1cart).2.total
        ≠ ex1cart.total + ex1order.shipping_total := by
  constructor
  · decide
  · decide

/-- The stale guest order of the cart-handoff scenario: billing profile A
(`some 1`) on cart 9, still active. -/
def ex8orderA : Order :=
  { pk := 1, order_id := "A1", billing_profile := some 1, shipping_address := none,
    billing_address := none, cart := 9, status := "created",
    shipping_total := 5000, total := 15000, active := true }

/-- The new order of the cart-handoff scenario: billing profile B (`some 2`)
on the same cart 9, not yet persisted. -/
def ex8orderB : Order :=
  { pk := 2, order_id := "", billing_profile := some 2, shipping_address := none,
    billing_address := none, cart := 9, status := "created",
    shipping_total := 5000, total := 0, active := true }

/-- The shared cart of the cart-handoff scenario. -/
def ex8cart : Cart := { id := 9, total := 10000, is_digital := false }

/-- C8: the pre-save receiver generates an identifier when the instance has
none, and marks every stored order on the instance's cart with a different
billing profile inactive; in the guest-handoff scenario, creating the order
for billing profile B on cart 9 flips the stored order for billing profile A
to `active = false`. -/
theorem pre_save_receiver_spec (db : List Order) (o r : Order) :
    (o.order_id = "" → ((order_id_pre_save_receiver db o).2).order_id ≠ "")
    ∧ (r ∈ (order_id_pre_save_receiver db o).1 → r.cart = o.cart →
        r.billing_profile ≠ o.billing_profile → r.active = false)
    ∧ (findRow (Order.create [ex8orderA] ex8orderB ex8cart).1 1).map (fun x => x.active)
        = some false := by
  refine ⟨?_, ?_, ?_⟩
  · intro h
    rw [preSave_order_id, if_pos h]
    exact generator_ne_empty db
  · intro hm hc hb
    rw [preSave_fst_eq] at hm
    apply (deactivate_mem hm).1
    · rw [preSave_cart]; exact hc
    · rw [preSave_billing_profile]; exact hb
  · decide

/-- C9: an order's identifier is non-empty after the first persistence
(`create` leaves a row whose `order_id` is non-empty) and no later save
changes it: saving an instance with a non-empty `order_id` keeps it, and
every other surviving row keeps the `order_id` of the stored row with its
primary key. -/
theorem order_id_immutable (db : List Order) (o r : Order) (c : Cart) :
    ((Order.create db o c).2.order_id ≠ "")
    ∧ findRow (Order.create db o c).1 o.pk = some (Order.create db o c).2
    ∧ (o.order_id ≠ "" → (Order.save db o).2.order_id = o.order_id)
    ∧ (o.order_id ≠ "" → findRow (Order.save db o).1 o.pk = some (Order.save db o).2)
    ∧ (r ∈ (Order.save db o).1 → r.pk ≠ o.pk →
        ∃ r0, r0 ∈ db ∧ r.pk = r0.pk ∧ r.order_id = r0.order_id) := by
  refine ⟨create_order_id_ne db o c, findRow_create db o c, save_order_id_ne db o, ?_, ?_⟩
  · intro _
    exact findRow_save db o
  · intro hm hpk
    rw [save_def] at hm
    rcases mem_saveRow hm with h1 | h2
    · exfalso
      apply hpk
      rw [h1, preSave_pk]
    · rw [preSave_fst_eq] at h2
      exact (deactivate_mem h2).2

/-- Witness for C9: a concrete order with a set identifier keeps it across a
save, and creating an order leaves a non-empty identifier. -/
theorem order_id_immutable_example :
    (Order.save [] ex8orderA).2.order_id = "A1"
    ∧ (Order.create [ex8orderA] ex8orderB ex8cart).2.order_id ≠ "" := by
  constructor
  · exact (order_id_immutable [] ex8orderA ex8orderA ex8cart).2.2.1 (by decide)
  · exact (order_id_immutable [ex8orderA] ex8orderB ex8orderA ex8cart).1

/-- C10: the sibling deactivation runs on every save, not only the first:
after any `save`, after the save inside `update_total`, and after the save a
successful `mark_paid` performs, every stored order on the saved order's
cart with a different billing profile is inactive. -/
theorem deactivation_on_every_save (db : List Order) (o r : Order) (c : Cart) :
    (r ∈ (Order.save db o).1 → r.cart = o.cart →
        r.billing_profile ≠ o.billing_profile → r.active = false)
    ∧ (r ∈ (Order.update_total db o c).1 → r.cart = o.cart →
        r.billing_profile ≠ o.billing_profile → r.active = false)
    ∧ (o.status ≠ "paid" → Order.check_done o c = true →
        r ∈ (Order.mark_paid db o c).1 → r.cart = o.cart →
        r.billing_profile ≠ o.billing_profile → r.active = false) := by
  refine ⟨?_, ?_, ?_⟩
  · exact fun hm hc hb => save_sibling_inactive hm hc hb
  · intro hm hc hb
    rw [update_total_def] at hm
    exact save_sibling_inactive hm hc hb
  · intro h1 h2 hm hc hb
    unfold Order.mark_paid at hm
    rw [if_pos h1, if_pos h2] at hm
    exact save_sibling_inactive hm hc hb

/-- Witness for C10: updating the total of an order on cart 9 deactivates the
stored sibling order of the other billing profile. -/
theorem deactivation_example :
    (findRow (Order.update_total [ex8orderA]
        { ex8orderB with order_id := "B1" } ex8cart).1 1).map (fun x => x.active)
      = some false := by
  have h := (deactivation_on_every_save [ex8orderA]
      { ex8orderB with order_id := "B1" }
      { ex8orderA with active := false } ex8cart).2.1
  have hm : { ex8orderA with active := false } ∈
      (Order.update_total [ex8orderA] { ex8orderB with order_id := "B1" } ex8cart).1 := by
    decide
  have := h hm (by decide) (by decide)
  decide

/-- C5: `get_or_new` returns the single matching active created order with
`created = false` when exactly one exists, and otherwise creates and returns
a fresh order bound to the billing profile and cart with `created = true`. -/
theorem get_or_new_spec (db : List Order) (bp : Option Nat) (c : Cart) (o0 : Order) :
    (db.filter (fun o =>
        decide (o.billing_profile = bp ∧ o.cart = c.id ∧ o.active = true
          ∧ o.status = "created")) = [o0]
      → get_or_new db bp c = (db, o0, false))
    ∧ ((db.filter (fun o =>
        decide (o.billing_profile = bp ∧ o.cart = c.id ∧ o.active = true
          ∧ o.status = "created"))).length ≠ 1
      → ((get_or_new db bp c).2.2 = true
          ∧ (get_or_new db bp c).2.1.billing_profile = bp
          ∧ (get_or_new db bp c).2.1.cart = c.id
          ∧ (∀ r ∈ db, r.pk ≠ (get_or_new db bp c).2.1.pk)
          ∧ findRow (get_or_new db bp c).1 (get_or_new db bp c).2.1.pk
              = some (get_or_new db bp c).2.1)) := by
  constructor
  · intro h
    unfold get_or_new
    rw [h]
  · intro h
    have e : get_or_new db bp c =
        ((Order.create db
            { pk := freshPk db, order_id := "", billing_profile := bp,
              shipping_address := none, billing_address := none, cart := c.id,
              status := "created", shipping_total := 5000, total := 0,
              active := true } c).1,
          (Order.create db
            { pk := freshPk db, order_id := "", billing_profile := bp,
              shipping_address := none, billing_address := none, cart := c.id,
              status := "created", shipping_total := 5000, total := 0,
              active := true } c).2,
          true) := by
      unfold get_or_new
      rcases hq : db.filter (fun o =>
          decide (o.billing_profile = bp ∧ o.cart = c.id ∧ o.active = true
            ∧ o.status = "created")) with _ | ⟨a, _ | ⟨b, t⟩⟩
      · rw [hq]
      · exfalso
        rw [hq] at h
        simp at h
      · rw [hq]
    rw [e]
    refine ⟨rfl, ?_, ?_, ?_, ?_⟩
    · rw [create_billing_profile]
    · rw [create_cart]
    · intro r hr
      rw [create_pk]
      exact freshPk_not_mem db r hr
    · rw [create_pk]
      exact findRow_create db _ c

/-- The cart of the `get_or_new` duplicate-prevention scenario. -/
def ex5cart : Cart := { id := 7, total := 10000, is_digital := false }

/-- The order `get_or_new` creates on `ex5cart` for billing profile 3 when no
order exists yet (identifier generated, total recomputed). -/
def ex5existing : Order :=
  { pk := 1, order_id := "order-0", billing_profile := some 3,
    shipping_address := none, billing_address := none, cart := 7,
    status := "created", shipping_total := 5000, total := 15000, active := true }

/-- Witness for C5: with no matching order `get_or_new` creates one
(`created = true`); calling it again while that order is still active and
`created` returns the existing order instead of a duplicate. -/
theorem get_or_new_examples :
    get_or_new [ex5existing] (some 3) ex5cart = ([ex5existing], ex5existing, false)
    ∧ (get_or_new [] (some 3) ex5cart).2.2 = true := by
  constructor
  · exact (get_or_new_spec [ex5existing] (some 3) ex5cart ex5existing).1 (by decide)
  · exact ((get_or_new_spec [] (some 3) ex5cart ex5existing).2 (by decide)).1

/-- C6: on a cart update (`created = false`), when exactly one order
references the cart, that order's total is recomputed (through the
binary-double path of the source, `newTotalCents`) and persisted and all
other rows survive unchanged; with zero or several referencing orders the
receiver leaves the database untouched. -/
theorem cart_receiver_spec (db : List Order) (c : Cart) (o0 : Order) :
    (db.filter (fun o => decide (o.cart = c.id)) = [o0] →
        (cart_total_post_save_receiver db c false = (Order.update_total db o0 c).1
          ∧ (Order.update_total db o0 c).2.total
              = newTotalCents c.total o0.shipping_total
          ∧ findRow (cart_total_post_save_receiver db c false) o0.pk
              = some (Order.update_total db o0 c).2
          ∧ ∀ r ∈ db, r.pk ≠ o0.pk → r ∈ cart_total_post_save_receiver db c false))
    ∧ ((db.filter (fun o => decide (o.cart = c.id))).length ≠ 1 →
        cart_total_post_save_receiver db c false = db) := by
  constructor
  · intro h
    have e : cart_total_post_save_receiver db c false
        = (Order.update_total db o0 c).1 := by
      unfold cart_total_post_save_receiver
      rw [h]
    have ho0c : o0.cart = c.id := by
      have ho0 : o0 ∈ db.filter (fun o => decide (o.cart = c.id)) := by
        rw [h]
        exact List.mem_singleton.mpr rfl
      have := (List.mem_filter.mp ho0).2
      simpa using this
    refine ⟨e, update_total_total db o0 c, ?_, ?_⟩
    · rw [e]
      exact findRow_update_total db o0 c
    · intro r hr hpk
      have hrc : r.cart ≠ c.id := by
        intro hrc
        have hrf : r ∈ db.filter (fun o => decide (o.cart = c.id)) :=
          List.mem_filter.mpr ⟨hr, by simpa using hrc⟩
        rw [h] at hrf
        have hro : r = o0 := by simpa using hrf
        exact hpk (by rw [hro])
      rw [e, update_total_def, save_def]
      apply mem_saveRow_of
      · rw [preSave_fst_eq]
        apply deactivate_mem_of hr
        rw [preSave_cart]
        intro heq
        exact hrc (heq.trans ho0c)
      · rw [preSave_pk]
        exact hpk
  · intro h
    unfold cart_total_post_save_receiver
    rcases hq : db.filter (fun o => decide (o.cart = c.id)) with _ | ⟨a, _ | ⟨b, t⟩⟩
    · rw [hq]
    · exfalso
      rw [hq] at h
      simp at h
    · rw [hq]

/-- The single order on cart 5 of the cart-update scenario. -/
def ex6order : Order :=
  { pk := 4, order_id := "B", billing_profile := some 1, shipping_address := none,
    billing_address := none, cart := 5, status := "created",
    shipping_total := 5000, total := 0, active := true }

/-- The updated cart of the cart-update scenario, new total 20.00. -/
def ex6cart : Cart := { id := 5, total := 2000, is_digital := false }

/-- Witness for C6: updating cart 5, which exactly one order references,
recomputes that order's total to 20.00 + 50.00 = 70.00. -/
theorem cart_receiver_example :
    cart_total_post_save_receiver [ex6order] ex6cart false
        = (Order.update_total [ex6order] ex6order ex6cart).1
    ∧ (Order.update_total [ex6order] ex6order ex6cart).2.total = 7000 := by
  have h := (cart_receiver_spec [ex6order] ex6cart ex6order).1 (by decide)
  refine ⟨h.1, ?_⟩
  rw [h.2.1]
  decide

end Kart
